import Mathlib

/-!
# rtslam segment processors (`rawSegProcessors.hpp`)

Shallow embedding of `jafar::rtslam::DsegMatcher` and `jafar::rtslam::HDsegDetector`.

Conventions of the embedding:
* a C++ `double` is an exact rational (`ℚ`); a division whose divisor is zero has no
  rational value and is reported as `Fault.divByZero`; where rounding decides, the
  endpoint correction is read a second time on binary64 values (`projectExtremitiesIEEE`);
* a `jblas::vec` is a list of rationals; an index or a range outside the vector and a
  size mismatch of two operands are reported as `Fault.badIndex` / `Fault.badSize`;
* a `boost::shared_ptr` is an address into a store; `SPTR_CAST` to the wrong variant
  gives the null pointer and dereferencing it is `Fault.nullDeref`;
* the tracker, the hierarchical detector and the descriptor factory are external: they
  are fields holding an arbitrary function.
-/

namespace jafar
namespace rtslam

/-! ## Vectors -/

/-- Ways in which an operation of the embedding can fail to produce a value. -/
inductive Fault where
  | badIndex
  | badSize
  | nullDeref
  | divByZero
  deriving DecidableEq

/-- The type `jblas::vec`: a dynamically sized vector of doubles. -/
abbrev vec := List ℚ

/-- Read access `v(i)`. -/
def vec.elemAt (v : vec) (i : Nat) : Except Fault ℚ :=
  match v.get? i with
  | some a => .ok a
  | none => .error .badIndex

/-- Write access `v(i) = a`. -/
def vec.setAt (v : vec) (i : Nat) (a : ℚ) : Except Fault vec :=
  if i < v.length then .ok (v.set i a) else .error .badIndex

/-- The range `subrange(v, start, stop)` read as a vector of size `stop - start`. -/
def subrange (v : vec) (start stop : Nat) : Except Fault vec :=
  if start ≤ stop ∧ stop ≤ v.length then .ok ((v.drop start).take (stop - start))
  else .error .badIndex

/-- The assignment `subrange(v, start, stop) = w`. -/
def assignSubrange (v : vec) (start stop : Nat) (w : vec) : Except Fault vec :=
  if start ≤ stop ∧ stop ≤ v.length then
    if w.length = stop - start then .ok (v.take start ++ w ++ v.drop stop)
    else .error .badSize
  else .error .badIndex

/-- Vector sum `a + b`. -/
def vec.add (a b : vec) : Except Fault vec :=
  if a.length = b.length then .ok (List.zipWith (· + ·) a b) else .error .badSize

/-- Vector difference `a - b`. -/
def vec.sub (a b : vec) : Except Fault vec :=
  if a.length = b.length then .ok (List.zipWith (· - ·) a b) else .error .badSize

/-- Product `u * a` of a scalar and a vector. -/
def vec.smul (u : ℚ) (a : vec) : vec :=
  a.map (u * ·)

/-- The 1-norm `norm_1(a)`: the sum of the absolute values of the components. -/
def norm_1 (a : vec) : ℚ :=
  (a.map (fun c => |c|)).sum

/-- Division of doubles, read in exact arithmetic. -/
def fdiv (a b : ℚ) : Except Fault ℚ :=
  if b = 0 then .error .divByZero else .ok (a / b)

/-! ## DsegMatcher -/

/-- The method `DsegMatcher::projectExtremities(meas, exp, newMeas)`; the returned vector
is `newMeas` after the call. -/
def projectExtremities (meas exp newMeas : vec) : Except Fault vec := do
  -- extract predicted points
  let P1 ← subrange exp 0 2
  let P2 ← subrange exp 2 4
  -- extract measured line
  let L1 ← subrange meas 0 2
  let L2 ← subrange meas 2 4
  -- project predicted points on line
  let u ← fdiv ((((← P1.elemAt 0) - (← L1.elemAt 0)) + ((← L2.elemAt 0) - (← L1.elemAt 0)))
              + (((← P1.elemAt 1) - (← L1.elemAt 1)) + ((← L2.elemAt 1) - (← L1.elemAt 1))))
             (norm_1 (← L1.sub L2) * norm_1 (← L1.sub L2))
  let newMeas ← assignSubrange newMeas 0 2 (← L1.add (vec.smul u (← L2.sub L1)))
  let u ← fdiv ((((← P2.elemAt 0) - (← L1.elemAt 0)) + ((← L2.elemAt 0) - (← L1.elemAt 0)))
              + (((← P2.elemAt 1) - (← L1.elemAt 1)) + ((← L2.elemAt 1) - (← L1.elemAt 1))))
             (norm_1 (← L1.sub L2) * norm_1 (← L1.sub L2))
  assignSubrange newMeas 2 4 (← L1.add (vec.smul u (← L2.sub L1)))

/-- Modelled from the spec: `dseg::SegmentHypothesis` (its header is not part of the
sources), a segment with the endpoint accessors `x1()`, `y1()`, `x2()`, `y2()`. -/
structure SegmentHypothesis where
  x1 : ℚ
  y1 : ℚ
  x2 : ℚ
  y2 : ℚ
  deriving DecidableEq

/-- Modelled from the spec: `dseg::SegmentsSet` (its header is not part of the sources), an
ordered collection of segments, empty when default-constructed. -/
structure SegmentsSet where
  segments : List SegmentHypothesis := []
  deriving DecidableEq

/-- The call `set.addSegment(s)`. -/
def SegmentsSet.addSegment (set : SegmentsSet) (s : SegmentHypothesis) : SegmentsSet :=
  { segments := set.segments ++ [s] }

/-- The call `set.count()`. -/
def SegmentsSet.count (set : SegmentsSet) : Nat :=
  set.segments.length

/-- The call `set.segmentAt(i)`. -/
def SegmentsSet.segmentAt (set : SegmentsSet) (i : Nat) : Except Fault SegmentHypothesis :=
  match set.segments.get? i with
  | some s => .ok s
  | none => .error .badIndex

/-- Modelled from the spec: `Measurement` (its header is not part of the sources), the
endpoint vector `x`, the standard deviation `std` and the `matchScore`. -/
structure Measurement where
  x : vec
  std : ℚ
  matchScore : ℚ
  deriving DecidableEq

/-- The setter `measure.std(s)`. -/
def Measurement.setStd (measure : Measurement) (s : ℚ) : Measurement :=
  { measure with std := s }

/-- Modelled from the spec: `AppearanceSegment` (its header is not part of the sources), the
appearance variant that carries a segment hypothesis. -/
structure AppearanceSegment where
  hypothesis : SegmentHypothesis
  deriving DecidableEq

/-- Modelled from the spec: `AppearanceImagePoint` (its header is not part of the sources),
the appearance variant that carries an image patch and its offset. -/
structure AppearanceImagePoint where
  patch : List (List Nat)
  offset : vec
  deriving DecidableEq

/-- Modelled from the spec: `AppearanceAbstract`, polymorphic over the two variants. -/
inductive AppearanceAbstract where
  | segment (a : AppearanceSegment)
  | imagePoint (a : AppearanceImagePoint)
  deriving DecidableEq

/-- A shared pointer is the address of the object it points to. -/
abbrev Ptr := Nat

/-- The appearance objects reachable through `appearance_ptr_t` handles. -/
abbrev AppStore := Ptr → AppearanceAbstract

/-- The cast `SPTR_CAST<AppearanceSegment>(p)`: the same address when the object is a
segment appearance, the null pointer otherwise. -/
def SPTR_CAST_AppearanceSegment (store : AppStore) (p : Ptr) : Option Ptr :=
  match store p with
  | .segment _ => some p
  | .imagePoint _ => none

/-- The call `p->hypothesis()` on an `app_seg_ptr_t`. -/
def app_seg_ptr_t.hypothesis (store : AppStore) (p : Option Ptr) :
    Except Fault SegmentHypothesis :=
  match p with
  | none => .error .nullDeref
  | some q =>
    match store q with
    | .segment a => .ok a.hypothesis
    | .imagePoint _ => .error .nullDeref

/-- The call `p->setHypothesis(h)` on an `app_seg_ptr_t`; the hypothesis is stored by
value. -/
def app_seg_ptr_t.setHypothesis (store : AppStore) (p : Option Ptr) (h : SegmentHypothesis) :
    Except Fault AppStore :=
  match p with
  | none => .error .nullDeref
  | some q =>
    match store q with
    | .segment a => .ok (Function.update store q (.segment { a with hypothesis := h }))
    | .imagePoint _ => .error .nullDeref

/-- An image; its contents are not inspected by this file. -/
structure Image where
  width : Nat
  height : Nat
  data : List Nat
  deriving DecidableEq

/-- The type `RawImage`: the handle `img` of the image. -/
structure RawImage where
  img : Image
  deriving DecidableEq

/-- The type `image::ConvexRoi`; its contents are not inspected by this file. -/
structure ConvexRoi where
  points : List (Int × Int)
  deriving DecidableEq

/-- The type `dseg::RtslamPredictor`; it has no content that this file inspects. -/
structure RtslamPredictor where
  deriving DecidableEq

/-- The external tracker `dseg::DirectSegmentsTracker`: `trackSegment(img, setin, &predictor,
setout)` maps the output set handed to it to the output set after the call. -/
structure DirectSegmentsTracker where
  trackSegment : Image → SegmentsSet → RtslamPredictor → SegmentsSet → SegmentsSet

/-- The record `DsegMatcher::matcher_params_t`; a field the constructor leaves
unassigned is `none`. -/
structure DsegMatcher.matcher_params_t where
  maxSearchSize : Option Int
  lowInnov : ℚ
  threshold : ℚ
  mahalanobisTh : ℚ
  relevanceTh : ℚ
  measStd : ℚ
  measVar : Option ℚ
  deriving DecidableEq

/-- The class `DsegMatcher`. -/
structure DsegMatcher where
  matcher : DirectSegmentsTracker
  predictor : RtslamPredictor
  params : DsegMatcher.matcher_params_t

/-- The constructor `DsegMatcher::DsegMatcher`; `tracker` is the default-constructed
member `matcher()`. -/
def DsegMatcher.new (tracker : DirectSegmentsTracker)
    (lowInnov threshold mahalanobisTh relevanceTh measStd : ℚ) : DsegMatcher :=
  { matcher := tracker
    predictor := {}
    params :=
      { maxSearchSize := none
        lowInnov := lowInnov
        threshold := threshold
        mahalanobisTh := mahalanobisTh
        relevanceTh := relevanceTh
        measStd := measStd
        measVar := none } }

/-- The method `DsegMatcher::match` (`match` is a reserved word); the result is the pair of
`measure` and of the appearance objects after the call. -/
def DsegMatcher.match_ (self : DsegMatcher) (rawPtr : RawImage) (targetApp : Ptr)
    (_roi : ConvexRoi) (measure : Measurement) (app : Ptr) (store : AppStore) :
    Except Fault (Measurement × AppStore) := do
  let targetAppSpec := SPTR_CAST_AppearanceSegment store targetApp
  let appSpec := SPTR_CAST_AppearanceSegment store app
  let setin : SegmentsSet := {}
  let setout : SegmentsSet := {}
  let setin := setin.addSegment (← app_seg_ptr_t.hypothesis store targetAppSpec)
  let setout := self.matcher.trackSegment rawPtr.img setin self.predictor setout
  if setout.count > 0 then
    let measure := measure.setStd self.params.measStd
    let measure := { measure with x := ← measure.x.setAt 0 (← setout.segmentAt 0).x1 }
    let measure := { measure with x := ← measure.x.setAt 1 (← setout.segmentAt 0).y1 }
    let measure := { measure with x := ← measure.x.setAt 2 (← setout.segmentAt 0).x2 }
    let measure := { measure with x := ← measure.x.setAt 3 (← setout.segmentAt 0).y2 }
    let measure := { measure with matchScore := 1 }
    let store ← app_seg_ptr_t.setHypothesis store appSpec (← setout.segmentAt 0)
    pure (measure, store)
  else
    let measure := { measure with matchScore := 0 }
    pure (measure, store)

/-! ## HDsegDetector -/

/-- Modelled from the spec: `FeatureSegment` (its header is not part of the sources), a
candidate bundling a measurement and the handle of an appearance. -/
structure FeatureSegment where
  measurement : Measurement
  appearancePtr : Ptr
  deriving DecidableEq

/-- Modelled from the spec: `LandmarkAbstract` (its header is not part of the sources), of
which only the attached descriptor handle matters here; `none` is the null handle. -/
structure LandmarkAbstract where
  descriptor : Option Ptr
  deriving DecidableEq

/-- The call `lmk->setDescriptor(descPtr)`. -/
def LandmarkAbstract.setDescriptor (_lmk : LandmarkAbstract) (descPtr : Ptr) :
    LandmarkAbstract :=
  { descriptor := some descPtr }

/-- Modelled from the spec: `ObservationAbstract` (its header is not part of the sources),
the handle of the observed appearance and the handle returned by `landmarkPtr()`. -/
structure ObservationAbstract where
  observedAppearance : Ptr
  landmarkPtr : Ptr
  deriving DecidableEq

/-- The external hierarchical detector: `detectIn(img, featPtr, &roi)` returns its verdict
and leaves the feature and the appearance objects as it wrote them. -/
structure HierarchicalDirectSegmentDetector where
  detectIn : Image → FeatureSegment → ConvexRoi → AppStore → Bool × FeatureSegment × AppStore

/-- The external descriptor factory: `createDescriptor()` maps the state of the factory to
the handle of the descriptor created and the state after the request. -/
structure DescriptorFactoryAbstract where
  createDescriptor : Nat → Ptr × Nat

/-- The record `HDsegDetector::detector_params_t`. -/
structure HDsegDetector.detector_params_t where
  measStd : ℚ
  measVar : ℚ
  hierarchyLevel : Int
  deriving DecidableEq

/-- The class `HDsegDetector`. -/
structure HDsegDetector where
  detector : HierarchicalDirectSegmentDetector
  descFactory : DescriptorFactoryAbstract
  params : HDsegDetector.detector_params_t

/-- The constructor `HDsegDetector::HDsegDetector`; `hdetector` is the default-constructed
member `detector()`. -/
def HDsegDetector.new (hdetector : HierarchicalDirectSegmentDetector)
    (hierarchyLevel : Int) (measStd : ℚ) (descFactory : DescriptorFactoryAbstract) :
    HDsegDetector :=
  { detector := hdetector
    descFactory := descFactory
    params :=
      { hierarchyLevel := hierarchyLevel
        measStd := measStd
        measVar := measStd * measStd } }

/-- The method `HDsegDetector::detect`; `fresh` is the object built by
`new FeatureSegment()`, and the result is the returned flag with `featPtr` and the
appearance objects after the call. -/
def HDsegDetector.detect (self : HDsegDetector) (rawData : RawImage) (roi : ConvexRoi)
    (fresh : FeatureSegment) (store : AppStore) : Bool × FeatureSegment × AppStore :=
  let featPtr := fresh
  let featPtr := { featPtr with measurement := featPtr.measurement.setStd self.params.measStd }
  let (ret, featPtr, store) := self.detector.detectIn rawData.img featPtr roi store
  (ret, featPtr, store)

/-- The objects `fillDataObs` can reach: appearances, landmarks, and the state of the
descriptor factory. -/
structure World where
  appearances : AppStore
  landmarks : Ptr → LandmarkAbstract
  factory : Nat

/-- The method `HDsegDetector::fillDataObs`; the result is the world after the call. -/
def HDsegDetector.fillDataObs (self : HDsegDetector) (featPtr : FeatureSegment)
    (obsPtr : ObservationAbstract) (w : World) : Except Fault World := do
  -- extract observed appearance
  let app_src := SPTR_CAST_AppearanceSegment w.appearances featPtr.appearancePtr
  let app_dst := SPTR_CAST_AppearanceSegment w.appearances obsPtr.observedAppearance
  let appearances ← app_seg_ptr_t.setHypothesis w.appearances app_dst
    (← app_seg_ptr_t.hypothesis w.appearances app_src)
  -- create descriptor
  let (descPtr, factory) := self.descFactory.createDescriptor w.factory
  let landmarks := Function.update w.landmarks obsPtr.landmarkPtr
    ((w.landmarks obsPtr.landmarkPtr).setDescriptor descPtr)
  pure { appearances := appearances, landmarks := landmarks, factory := factory }

/-! ## The endpoint correction as the specification words it -/

/-- The scalar `u_i` of the specification for a predicted point `P` and the line
`(L1, L2)`. -/
def spec_u (P L1 L2 : ℚ × ℚ) : ℚ :=
  ((P.1 - L1.1) + (L2.1 - L1.1) + (P.2 - L1.2) + (L2.2 - L1.2))
    / (|L1.1 - L2.1| + |L1.2 - L2.2|) ^ 2

/-- The corrected endpoint `L1 + u_i · (L2 - L1)` of the specification. -/
def spec_corrected (P L1 L2 : ℚ × ℚ) : ℚ × ℚ :=
  (L1.1 + spec_u P L1 L2 * (L2.1 - L1.1), L1.2 + spec_u P L1 L2 * (L2.2 - L1.2))

/-! ## The endpoint correction on doubles

The same method with every arithmetic operation rounded by `rnd`: `round64` gives the
binary64 arithmetic of the code (round to nearest, ties to even, gradual underflow,
overflow to infinity), `Double.finite` gives exact arithmetic. A division by zero does not
stop the call: it yields an infinity or a NaN and the call goes on. -/

/-- A value of the type `double`. The sign of a zero is not tracked: the only divisor of
this file is a product of two 1-norms, which is never a negative zero. -/
inductive Double where
  | finite (q : ℚ)
  | posInf
  | negInf
  | nan
  deriving DecidableEq

/-- The sum `a + b` of doubles. -/
def Double.add (rnd : ℚ → Double) (a b : Double) : Double :=
  match a, b with
  | .finite x, .finite y => rnd (x + y)
  | .finite _, .posInf => .posInf
  | .finite _, .negInf => .negInf
  | .posInf, .finite _ => .posInf
  | .posInf, .posInf => .posInf
  | .negInf, .finite _ => .negInf
  | .negInf, .negInf => .negInf
  | .posInf, .negInf => .nan
  | .negInf, .posInf => .nan
  | .nan, _ => .nan
  | _, .nan => .nan

/-- The difference `a - b` of doubles. -/
def Double.sub (rnd : ℚ → Double) (a b : Double) : Double :=
  match a, b with
  | .finite x, .finite y => rnd (x - y)
  | .finite _, .posInf => .negInf
  | .finite _, .negInf => .posInf
  | .posInf, .finite _ => .posInf
  | .posInf, .negInf => .posInf
  | .negInf, .finite _ => .negInf
  | .negInf, .posInf => .negInf
  | .posInf, .posInf => .nan
  | .negInf, .negInf => .nan
  | .nan, _ => .nan
  | _, .nan => .nan

/-- An infinity of the given sign. -/
def Double.infOfSign (positive : Bool) : Double :=
  if positive then .posInf else .negInf

/-- The product `a * b` of doubles. -/
def Double.mul (rnd : ℚ → Double) (a b : Double) : Double :=
  match a, b with
  | .finite x, .finite y => rnd (x * y)
  | .finite x, .posInf => if x = 0 then .nan else Double.infOfSign (decide (0 < x))
  | .finite x, .negInf => if x = 0 then .nan else Double.infOfSign (decide (x < 0))
  | .posInf, .finite y => if y = 0 then .nan else Double.infOfSign (decide (0 < y))
  | .negInf, .finite y => if y = 0 then .nan else Double.infOfSign (decide (y < 0))
  | .posInf, .posInf => .posInf
  | .negInf, .negInf => .posInf
  | .posInf, .negInf => .negInf
  | .negInf, .posInf => .negInf
  | .nan, _ => .nan
  | _, .nan => .nan

/-- The type `jblas::vec` with its components kept as doubles. -/
abbrev dvec := List Double

/-- Read access `v(i)`. -/
def dvec.elemAt (v : dvec) (i : Nat) : Except Fault Double :=
  match v.get? i with
  | some a => .ok a
  | none => .error .badIndex

/-- Vector sum `a + b`. -/
def dvec.add (rnd : ℚ → Double) (a b : dvec) : Except Fault dvec :=
  if a.length = b.length then .ok (List.zipWith (Double.add rnd) a b) else .error .badSize

/-- Vector difference `a - b`. -/
def dvec.sub (rnd : ℚ → Double) (a b : dvec) : Except Fault dvec :=
  if a.length = b.length then .ok (List.zipWith (Double.sub rnd) a b) else .error .badSize

/-- Product `u * a` of a scalar and a vector. -/
def dvec.smul (rnd : ℚ → Double) (u : Double) (a : dvec) : dvec :=
  a.map (Double.mul rnd u)

/-- The output set that the tracker yields inside `match` for the target hypothesis `h`. -/
def DsegMatcher.setout (self : DsegMatcher) (rawPtr : RawImage) (h : SegmentHypothesis) :
    SegmentsSet :=
  self.matcher.trackSegment rawPtr.img (SegmentsSet.addSegment {} h) self.predictor {}

/-- In the call `detectIn(img, f, &roi)` the hierarchical detector does not write
`measurement.std` of the feature `f` it is handed. -/
def HierarchicalDirectSegmentDetector.keepsStdAt (d : HierarchicalDirectSegmentDetector)
    (img : Image) (f : FeatureSegment) (roi : ConvexRoi) (store : AppStore) : Prop :=
  (d.detectIn img f roi store).2.1.measurement.std = f.measurement.std

/-! ## Concrete collaborators for evaluating the code -/

/-- A tracker that yields the given segments whatever it is asked. -/
def constTracker (out : List SegmentHypothesis) : DirectSegmentsTracker :=
  { trackSegment := fun _ _ _ _ => { segments := out } }

/-- A detector that reports success and writes the endpoints `(1,2,3,4)` only. -/
def endpointDetector : HierarchicalDirectSegmentDetector :=
  { detectIn := fun _ f _ store =>
      (true, { f with measurement := { f.measurement with x := [1, 2, 3, 4] } }, store) }

/-- A detector that reports success and resets `measurement.std` to `0` on images of
width 7 only. -/
def widthSevenDetector : HierarchicalDirectSegmentDetector :=
  { detectIn := fun img f _ store =>
      if img.width = 7 then (true, { f with measurement := f.measurement.setStd 0 }, store)
      else (true, f, store) }

/-- A detector that reports success and resets `measurement.std` to `0`. -/
def resettingDetector : HierarchicalDirectSegmentDetector :=
  { detectIn := fun _ f _ store =>
      (true, { f with measurement := f.measurement.setStd 0 }, store) }

/-- A factory whose state counts the requests and whose descriptors sit at `100 + state`. -/
def countingFactory : DescriptorFactoryAbstract :=
  { createDescriptor := fun n => (100 + n, n + 1) }

/-- An empty image. -/
def img0 : RawImage :=
  { img := { width := 0, height := 0, data := [] } }

/-- An empty region. -/
def roi0 : ConvexRoi :=
  { points := [] }

/-- A store in which every handle carries the segment hypothesis `(5,5)`–`(7,7)`. -/
def store0 : AppStore :=
  fun _ => .segment { hypothesis := { x1 := 5, y1 := 5, x2 := 7, y2 := 7 } }

/-- The measurement `(5,5,7,7)` with `std = 1` and `matchScore = 0`. -/
def measure0 : Measurement :=
  { x := [5, 5, 7, 7], std := 1, matchScore := 0 }

/-- A freshly built feature with no endpoints written yet. -/
def fresh0 : FeatureSegment :=
  { measurement := { x := [0, 0, 0, 0], std := 0, matchScore := 0 }, appearancePtr := 0 }

/-- A store in which handle `0` carries the segment hypothesis `(5,5)`–`(7,7)` and every
other handle the segment hypothesis `(1,2)`–`(3,4)`. -/
def store2 : AppStore :=
  fun p =>
    if p = 0 then .segment { hypothesis := { x1 := 5, y1 := 5, x2 := 7, y2 := 7 } }
    else .segment { hypothesis := { x1 := 1, y1 := 2, x2 := 3, y2 := 4 } }

/-- A world over `store2` with no descriptor attached and an unused factory. -/
def world2 : World :=
  { appearances := store2, landmarks := fun _ => { descriptor := none }, factory := 0 }

/-! ## Auxiliary facts on faults and vectors -/

theorem ok_bind {α β : Type} (a : α) (f : α → Except Fault β) :
    (Except.ok a >>= f) = f a := by
  show Except.bind (Except.ok a) f = f a
  unfold Except.bind
  rfl

theorem error_bind {α β : Type} (e : Fault) (f : α → Except Fault β) :
    (Except.error e >>= f) = Except.error e := by
  show Except.bind (Except.error e) f = Except.error e
  unfold Except.bind
  rfl

theorem pure_eq_ok {α : Type} (a : α) : (pure a : Except Fault α) = Except.ok a := by
  show Except.pure a = Except.ok a
  unfold Except.pure
  rfl

theorem subrange_first (a b c d : ℚ) (r : vec) :
    subrange (a :: b :: c :: d :: r) 0 2 = .ok [a, b] := by
  simp [subrange]

theorem subrange_second (a b c d : ℚ) (r : vec) :
    subrange (a :: b :: c :: d :: r) 2 4 = .ok [c, d] := by
  simp [subrange]

theorem elemAt_zero (a b : ℚ) : vec.elemAt [a, b] 0 = .ok a := by
  simp [vec.elemAt]

theorem elemAt_one (a b : ℚ) : vec.elemAt [a, b] 1 = .ok b := by
  simp [vec.elemAt]

theorem sub_pair (a b c d : ℚ) : vec.sub [a, b] [c, d] = .ok [a - c, b - d] := by
  simp [vec.sub]

theorem add_pair (a b c d : ℚ) : vec.add [a, b] [c, d] = .ok [a + c, b + d] := by
  simp [vec.add]

theorem smul_pair (u a b : ℚ) : vec.smul u [a, b] = [u * a, u * b] := by
  simp [vec.smul]

theorem norm_1_pair (a b : ℚ) : norm_1 [a, b] = |a| + |b| := by
  simp [norm_1]

theorem assign_first (a b c d x y : ℚ) (r : vec) :
    assignSubrange (a :: b :: c :: d :: r) 0 2 [x, y] = .ok (x :: y :: c :: d :: r) := by
  simp [assignSubrange]

theorem assign_second (a b c d x y : ℚ) (r : vec) :
    assignSubrange (a :: b :: c :: d :: r) 2 4 [x, y] = .ok (a :: b :: x :: y :: r) := by
  simp [assignSubrange]

theorem fdiv_ok (a b : ℚ) (h : b ≠ 0) : fdiv a b = .ok (a / b) := by
  simp [fdiv, h]

theorem fdiv_zero (a b : ℚ) (h : b = 0) : fdiv a b = .error .divByZero := by
  simp [fdiv, h]

/-- The divisor of `projectExtremities` vanishes exactly when the two points agree. -/
theorem divisor_eq_zero_iff (l1x l1y l2x l2y : ℚ) :
    (|l1x - l2x| + |l1y - l2y|) * (|l1x - l2x| + |l1y - l2y|) = 0
      ↔ l1x = l2x ∧ l1y = l2y := by
  have hx := abs_nonneg (l1x - l2x)
  have hy := abs_nonneg (l1y - l2y)
  constructor
  · intro h
    have hsum : |l1x - l2x| + |l1y - l2y| = 0 := by
      rcases mul_eq_zero.mp h with h0 | h0 <;> exact h0
    have h1 : |l1x - l2x| = 0 := by linarith
    have h2 : |l1y - l2y| = 0 := by linarith
    exact ⟨sub_eq_zero.mp (abs_eq_zero.mp h1), sub_eq_zero.mp (abs_eq_zero.mp h2)⟩
  · rintro ⟨h1, h2⟩
    simp [h1, h2]

/-- The value of `projectExtremities` on vectors that hold at least four components each,
when the divisor is not zero. -/
theorem projectExtremities_ok (l1x l1y l2x l2y p1x p1y p2x p2y n0 n1 n2 n3 : ℚ)
    (mrest erest nrest : vec)
    (h : (|l1x - l2x| + |l1y - l2y|) * (|l1x - l2x| + |l1y - l2y|) ≠ 0) :
    projectExtremities (l1x :: l1y :: l2x :: l2y :: mrest) (p1x :: p1y :: p2x :: p2y :: erest)
        (n0 :: n1 :: n2 :: n3 :: nrest)
      = .ok (
        (l1x + (((p1x - l1x) + (l2x - l1x)) + ((p1y - l1y) + (l2y - l1y)))
              / ((|l1x - l2x| + |l1y - l2y|) * (|l1x - l2x| + |l1y - l2y|)) * (l2x - l1x)) ::
        (l1y + (((p1x - l1x) + (l2x - l1x)) + ((p1y - l1y) + (l2y - l1y)))
              / ((|l1x - l2x| + |l1y - l2y|) * (|l1x - l2x| + |l1y - l2y|)) * (l2y - l1y)) ::
        (l1x + (((p2x - l1x) + (l2x - l1x)) + ((p2y - l1y) + (l2y - l1y)))
              / ((|l1x - l2x| + |l1y - l2y|) * (|l1x - l2x| + |l1y - l2y|)) * (l2x - l1x)) ::
        (l1y + (((p2x - l1x) + (l2x - l1x)) + ((p2y - l1y) + (l2y - l1y)))
              / ((|l1x - l2x| + |l1y - l2y|) * (|l1x - l2x| + |l1y - l2y|)) * (l2y - l1y)) ::
        nrest) := by
  unfold projectExtremities
  simp only [subrange_first, subrange_second, elemAt_zero, elemAt_one, sub_pair, add_pair,
    smul_pair, norm_1_pair, assign_first, assign_second, fdiv_ok _ _ h, ok_bind]

/-- The value of `projectExtremities` on vectors that hold at least four components each,
when the divisor is zero. -/
theorem projectExtremities_zero (l1x l1y l2x l2y p1x p1y p2x p2y : ℚ)
    (mrest erest newMeas : vec)
    (h : (|l1x - l2x| + |l1y - l2y|) * (|l1x - l2x| + |l1y - l2y|) = 0) :
    projectExtremities (l1x :: l1y :: l2x :: l2y :: mrest) (p1x :: p1y :: p2x :: p2y :: erest)
        newMeas
      = .error .divByZero := by
  unfold projectExtremities
  simp only [subrange_first, subrange_second, elemAt_zero, elemAt_one, sub_pair, add_pair,
    smul_pair, norm_1_pair, fdiv_zero _ _ h, ok_bind, error_bind]

theorem divisor_ne_zero_of_ne (L1 L2 : ℚ × ℚ) (h : L1 ≠ L2) :
    (|L1.1 - L2.1| + |L1.2 - L2.2|) * (|L1.1 - L2.1| + |L1.2 - L2.2|) ≠ 0 := by
  intro h0
  rcases (divisor_eq_zero_iff L1.1 L1.2 L2.1 L2.2).mp h0 with ⟨hx, hy⟩
  exact h (Prod.ext hx hy)

theorem code_u_eq_spec_u (P L1 L2 : ℚ × ℚ) :
    (((P.1 - L1.1) + (L2.1 - L1.1)) + ((P.2 - L1.2) + (L2.2 - L1.2)))
        / ((|L1.1 - L2.1| + |L1.2 - L2.2|) * (|L1.1 - L2.1| + |L1.2 - L2.2|))
      = spec_u P L1 L2 := by
  unfold spec_u
  rw [pow_two]
  congr 1
  ring

/-! ## Auxiliary facts on doubles -/

theorem cast_segment (store : AppStore) (p : Ptr) (a : AppearanceSegment)
    (h : store p = .segment a) : SPTR_CAST_AppearanceSegment store p = some p := by
  simp [SPTR_CAST_AppearanceSegment, h]

theorem cast_imagePoint (store : AppStore) (p : Ptr) (c : AppearanceImagePoint)
    (h : store p = .imagePoint c) : SPTR_CAST_AppearanceSegment store p = none := by
  simp [SPTR_CAST_AppearanceSegment, h]

theorem hypothesis_some (store : AppStore) (p : Ptr) (a : AppearanceSegment)
    (h : store p = .segment a) :
    app_seg_ptr_t.hypothesis store (some p) = .ok a.hypothesis := by
  simp [app_seg_ptr_t.hypothesis, h]

theorem hypothesis_none (store : AppStore) :
    app_seg_ptr_t.hypothesis store none = .error .nullDeref := by
  simp [app_seg_ptr_t.hypothesis]

theorem setHypothesis_some (store : AppStore) (p : Ptr) (a : AppearanceSegment)
    (s : SegmentHypothesis) (h : store p = .segment a) :
    app_seg_ptr_t.setHypothesis store (some p) s
      = .ok (Function.update store p (.segment { hypothesis := s })) := by
  simp [app_seg_ptr_t.setHypothesis, h]

theorem setHypothesis_none (store : AppStore) (s : SegmentHypothesis) :
    app_seg_ptr_t.setHypothesis store none s = .error .nullDeref := by
  simp [app_seg_ptr_t.setHypothesis]

theorem count_of_nil (set : SegmentsSet) (h : set.segments = []) : ¬ set.count > 0 := by
  simp [SegmentsSet.count, h]

theorem count_of_cons (set : SegmentsSet) (s : SegmentHypothesis) (rest : List SegmentHypothesis)
    (h : set.segments = s :: rest) : set.count > 0 := by
  simp [SegmentsSet.count, h]

theorem segmentAt_zero (set : SegmentsSet) (s : SegmentHypothesis)
    (rest : List SegmentHypothesis) (h : set.segments = s :: rest) :
    set.segmentAt 0 = .ok s := by
  simp [SegmentsSet.segmentAt, h]

theorem setAt_zero (a v : ℚ) (r : vec) : vec.setAt (a :: r) 0 v = .ok (v :: r) := by
  simp [vec.setAt]

theorem setAt_one (a b v : ℚ) (r : vec) : vec.setAt (a :: b :: r) 1 v = .ok (a :: v :: r) := by
  simp [vec.setAt]

theorem setAt_two (a b c v : ℚ) (r : vec) :
    vec.setAt (a :: b :: c :: r) 2 v = .ok (a :: b :: v :: r) := by
  simp [vec.setAt]

theorem setAt_three (a b c d v : ℚ) (r : vec) :
    vec.setAt (a :: b :: c :: d :: r) 3 v = .ok (a :: b :: c :: v :: r) := by
  simp [vec.setAt]

theorem setAt_short (x : vec) (i : Nat) (v : ℚ) (h : x.length ≤ i) :
    vec.setAt x i v = .error .badIndex := by
  simp [vec.setAt, h]

/-- The target handle does not carry a segment appearance: `match` fails on the null
pointer. -/
theorem match_of_bad_target (self : DsegMatcher) (rawPtr : RawImage) (targetApp app : Ptr)
    (roi : ConvexRoi) (measure : Measurement) (store : AppStore) (c : AppearanceImagePoint)
    (hta : store targetApp = .imagePoint c) :
    self.match_ rawPtr targetApp roi measure app store = .error .nullDeref := by
  unfold DsegMatcher.match_
  simp only [cast_imagePoint store targetApp c hta, hypothesis_none, error_bind]

/-- The tracker yields no segment: only `matchScore` is written. -/
theorem match_of_empty (self : DsegMatcher) (rawPtr : RawImage) (targetApp app : Ptr)
    (roi : ConvexRoi) (measure : Measurement) (store : AppStore) (a : AppearanceSegment)
    (hta : store targetApp = .segment a)
    (hout : (self.setout rawPtr a.hypothesis).segments = []) :
    self.match_ rawPtr targetApp roi measure app store
      = .ok ({ measure with matchScore := 0 }, store) := by
  have hc := count_of_nil _ hout
  unfold DsegMatcher.setout at hc
  unfold DsegMatcher.match_
  simp only [cast_segment store targetApp a hta, hypothesis_some store targetApp a hta,
    ok_bind, if_neg hc, pure_eq_ok]

/-- The tracker yields a segment and the call is well formed: the value of `match`. -/
theorem match_of_tracked (self : DsegMatcher) (rawPtr : RawImage) (targetApp app : Ptr)
    (roi : ConvexRoi) (x0 x1 x2 x3 sd sc : ℚ) (xr : vec) (store : AppStore)
    (a b : AppearanceSegment) (s : SegmentHypothesis) (rest : List SegmentHypothesis)
    (hta : store targetApp = .segment a) (happ : store app = .segment b)
    (hout : (self.setout rawPtr a.hypothesis).segments = s :: rest) :
    self.match_ rawPtr targetApp roi
        { x := x0 :: x1 :: x2 :: x3 :: xr, std := sd, matchScore := sc } app store
      = .ok ({ x := s.x1 :: s.y1 :: s.x2 :: s.y2 :: xr, std := self.params.measStd,
               matchScore := 1 },
             Function.update store app (.segment { hypothesis := s })) := by
  have hc := count_of_cons _ s rest hout
  have hs := segmentAt_zero _ s rest hout
  unfold DsegMatcher.setout at hc hs
  unfold DsegMatcher.match_
  simp only [cast_segment store targetApp a hta, hypothesis_some store targetApp a hta,
    cast_segment store app b happ, setHypothesis_some store app b s happ,
    ok_bind, if_pos hc, pure_eq_ok, hs, Measurement.setStd, setAt_zero, setAt_one, setAt_two,
    setAt_three]

/-- The tracker yields a segment but the measurement has fewer than four components:
`match` fails on an index. -/
theorem match_of_tracked_short (self : DsegMatcher) (rawPtr : RawImage) (targetApp app : Ptr)
    (roi : ConvexRoi) (measure : Measurement) (store : AppStore)
    (a : AppearanceSegment) (s : SegmentHypothesis) (rest : List SegmentHypothesis)
    (hta : store targetApp = .segment a)
    (hout : (self.setout rawPtr a.hypothesis).segments = s :: rest)
    (hx : measure.x.length < 4) :
    self.match_ rawPtr targetApp roi measure app store = .error .badIndex := by
  have hc := count_of_cons _ s rest hout
  have hs := segmentAt_zero _ s rest hout
  unfold DsegMatcher.setout at hc hs
  obtain ⟨x, sd, sc⟩ := measure
  unfold DsegMatcher.match_
  simp only [cast_segment store targetApp a hta, hypothesis_some store targetApp a hta,
    ok_bind, if_pos hc, hs, Measurement.setStd]
  match x, hx with
  | [], _ =>
    simp only [setAt_short [] 0 _ (by simp), error_bind]
  | [x0], _ =>
    simp only [setAt_zero, setAt_short [_] 1 _ (by simp), ok_bind, error_bind]
  | [x0, x1], _ =>
    simp only [setAt_zero, setAt_one, setAt_short [_, _] 2 _ (by simp), ok_bind, error_bind]
  | [x0, x1, x2], _ =>
    simp only [setAt_zero, setAt_one, setAt_two, setAt_short [_, _, _] 3 _ (by simp), ok_bind,
      error_bind]
  | _ :: _ :: _ :: _ :: _, h => simp at h; omega

/-- The tracker yields a segment but the output handle does not carry a segment
appearance: `match` fails on the null pointer. -/
theorem match_of_tracked_bad_app (self : DsegMatcher) (rawPtr : RawImage)
    (targetApp app : Ptr) (roi : ConvexRoi) (x0 x1 x2 x3 sd sc : ℚ) (xr : vec)
    (store : AppStore) (a : AppearanceSegment) (c : AppearanceImagePoint)
    (s : SegmentHypothesis) (rest : List SegmentHypothesis)
    (hta : store targetApp = .segment a) (happ : store app = .imagePoint c)
    (hout : (self.setout rawPtr a.hypothesis).segments = s :: rest) :
    self.match_ rawPtr targetApp roi
        { x := x0 :: x1 :: x2 :: x3 :: xr, std := sd, matchScore := sc } app store
      = .error .nullDeref := by
  have hc := count_of_cons _ s rest hout
  have hs := segmentAt_zero _ s rest hout
  unfold DsegMatcher.setout at hc hs
  unfold DsegMatcher.match_
  simp only [cast_segment store targetApp a hta, hypothesis_some store targetApp a hta,
    cast_imagePoint store app c happ, setHypothesis_none,
    ok_bind, error_bind, if_pos hc, hs, Measurement.setStd, setAt_zero, setAt_one, setAt_two,
    setAt_three]

/-! ## Endpoint correction -/

/-- C4: for a measured line with `L1 ≠ L2` and any predicted pair, `projectExtremities`
writes the corrected endpoints `L1 + u_i * (L2 - L1)` with the scalar `u_i` of the
specification, in exact arithmetic; for `L1 = (0,0)`, `L2 = (10,0)`, `P1 = (5,5)` the
scalar is `1/5` and the first corrected endpoint is `(2,0)`. -/
theorem projectExtremities_formula (L1 L2 P1 P2 : ℚ × ℚ) (n0 n1 n2 n3 : ℚ)
    (mrest erest nrest : vec) (h : L1 ≠ L2) :
    projectExtremities (L1.1 :: L1.2 :: L2.1 :: L2.2 :: mrest)
        (P1.1 :: P1.2 :: P2.1 :: P2.2 :: erest) (n0 :: n1 :: n2 :: n3 :: nrest)
      = .ok ((spec_corrected P1 L1 L2).1 :: (spec_corrected P1 L1 L2).2
          :: (spec_corrected P2 L1 L2).1 :: (spec_corrected P2 L1 L2).2 :: nrest)
    ∧ spec_u (5, 5) (0, 0) (10, 0) = 1 / 5
    ∧ ∀ p2x p2y : ℚ, ∃ c d : ℚ,
        projectExtremities (0 :: 0 :: 10 :: 0 :: mrest) (5 :: 5 :: p2x :: p2y :: erest)
            (n0 :: n1 :: n2 :: n3 :: nrest)
          = .ok (2 :: 0 :: c :: d :: nrest) := by
  refine ⟨?_, ?_, ?_⟩
  · rw [projectExtremities_ok _ _ _ _ _ _ _ _ _ _ _ _ _ _ _ (divisor_ne_zero_of_ne L1 L2 h)]
    rw [code_u_eq_spec_u P1 L1 L2, code_u_eq_spec_u P2 L1 L2]
    rfl
  · unfold spec_u
    norm_num
  · intro p2x p2y
    have hd : (|(0 : ℚ) - 10| + |(0 : ℚ) - 0|) * (|(0 : ℚ) - 10| + |(0 : ℚ) - 0|) ≠ 0 := by
      norm_num
    rw [projectExtremities_ok _ _ _ _ _ _ _ _ _ _ _ _ _ _ _ hd]
    norm_num

/-- Witness of C4 at `L1 = (0,0)`, `L2 = (10,0)`, `P1 = (5,5)`, `P2 = (7,7)`. -/
theorem projectExtremities_formula_witness :
    ((0, 0) : ℚ × ℚ) ≠ (10, 0)
    ∧ projectExtremities [0, 0, 10, 0] [5, 5, 7, 7] [9, 9, 9, 9] = .ok [2, 0, 12 / 5, 0] := by
  have hne : ((0, 0) : ℚ × ℚ) ≠ (10, 0) := by
    intro h
    have h1 := congrArg Prod.fst h
    norm_num at h1
  refine ⟨hne, ?_⟩
  have key := (projectExtremities_formula (0, 0) (10, 0) (5, 5) (7, 7) 9 9 9 9 [] [] [] hne).1
  rw [key]
  simp only [spec_corrected, spec_u]
  norm_num

/-- C9: the first corrected endpoint (indices 0,1) depends on `P1`, `L1`, `L2` only and
the second (indices 2,3) on `P2`, `L1`, `L2` only (the other predicted point, the
components past the fourth and the output vector may all differ); on the swapped prediction
`projectExtremities` returns the two corrected endpoints in swapped order; and the four
components written do not depend on the previous contents of the output vector. -/
theorem projectExtremities_positional (l1x l1y l2x l2y p1x p1y p2x p2y q1x q1y q2x q2y : ℚ)
    (n0 n1 n2 n3 m0 m1 m2 m3 : ℚ) (mrest lrest erest frest nrest krest : vec) :
    Except.map (List.take 2)
        (projectExtremities (l1x :: l1y :: l2x :: l2y :: mrest)
          (p1x :: p1y :: p2x :: p2y :: erest) (n0 :: n1 :: n2 :: n3 :: nrest))
      = Except.map (List.take 2)
        (projectExtremities (l1x :: l1y :: l2x :: l2y :: lrest)
          (p1x :: p1y :: q2x :: q2y :: frest) (m0 :: m1 :: m2 :: m3 :: krest))
    ∧ Except.map (fun r => (r.drop 2).take 2)
        (projectExtremities (l1x :: l1y :: l2x :: l2y :: mrest)
          (p1x :: p1y :: p2x :: p2y :: erest) (n0 :: n1 :: n2 :: n3 :: nrest))
      = Except.map (fun r => (r.drop 2).take 2)
        (projectExtremities (l1x :: l1y :: l2x :: l2y :: lrest)
          (q1x :: q1y :: p2x :: p2y :: frest) (m0 :: m1 :: m2 :: m3 :: krest))
    ∧ Except.map (List.take 4)
        (projectExtremities (l1x :: l1y :: l2x :: l2y :: lrest)
          (p2x :: p2y :: p1x :: p1y :: frest) (m0 :: m1 :: m2 :: m3 :: krest))
      = Except.map (fun r => (r.drop 2).take 2 ++ r.take 2)
        (projectExtremities (l1x :: l1y :: l2x :: l2y :: mrest)
          (p1x :: p1y :: p2x :: p2y :: erest) (n0 :: n1 :: n2 :: n3 :: nrest))
    ∧ Except.map (List.take 4)
        (projectExtremities (l1x :: l1y :: l2x :: l2y :: mrest)
          (p1x :: p1y :: p2x :: p2y :: erest) (n0 :: n1 :: n2 :: n3 :: nrest))
      = Except.map (List.take 4)
        (projectExtremities (l1x :: l1y :: l2x :: l2y :: mrest)
          (p1x :: p1y :: p2x :: p2y :: erest) (m0 :: m1 :: m2 :: m3 :: krest)) := by
  by_cases h : (|l1x - l2x| + |l1y - l2y|) * (|l1x - l2x| + |l1y - l2y|) = 0
  · simp only [projectExtremities_zero _ _ _ _ _ _ _ _ _ _ _ h]
    exact ⟨trivial, trivial, rfl, trivial⟩
  · simp only [projectExtremities_ok _ _ _ _ _ _ _ _ _ _ _ _ _ _ _ h]
    refine ⟨?_, ?_, ?_, ?_⟩ <;> simp [Except.map]

/-- C1, as the code has it: when the tracker yields at least one segment, the four
endpoint components written to the measurement are the raw endpoints
`(x1, y1, x2, y2)` of the first matched segment; `projectExtremities` is not applied. -/
theorem match_writes_raw_endpoints (self : DsegMatcher) (rawPtr : RawImage)
    (targetApp app : Ptr) (roi : ConvexRoi) (measure : Measurement) (store : AppStore)
    (a b : AppearanceSegment) (s : SegmentHypothesis) (rest : List SegmentHypothesis)
    (hta : store targetApp = .segment a) (happ : store app = .segment b)
    (hout : (self.setout rawPtr a.hypothesis).segments = s :: rest)
    (hx : 4 ≤ measure.x.length) :
    Except.map (fun r => r.1.x) (self.match_ rawPtr targetApp roi measure app store)
      = .ok (s.x1 :: s.y1 :: s.x2 :: s.y2 :: measure.x.drop 4) := by
  obtain ⟨x, sd, sc⟩ := measure
  match x, hx with
  | x0 :: x1 :: x2 :: x3 :: xr, _ =>
    rw [match_of_tracked self rawPtr targetApp app roi x0 x1 x2 x3 sd sc xr store a b s rest
      hta happ hout]
    rfl

/-- Witness of the amended C1: the tracker yields `(0,0)`–`(10,0)`. -/
theorem match_writes_raw_endpoints_witness :
    store0 0 = .segment { hypothesis := { x1 := 5, y1 := 5, x2 := 7, y2 := 7 } }
    ∧ 4 ≤ measure0.x.length
    ∧ Except.map (fun r => r.1.x)
        ((DsegMatcher.new (constTracker [{ x1 := 0, y1 := 0, x2 := 10, y2 := 0 }]) 1 1 1 1 1).match_
          img0 0 roi0 measure0 1 store0)
      = .ok [0, 0, 10, 0] :=
  ⟨rfl, by simp [measure0],
   match_writes_raw_endpoints
     (DsegMatcher.new (constTracker [{ x1 := 0, y1 := 0, x2 := 10, y2 := 0 }]) 1 1 1 1 1)
     img0 0 1 roi0 measure0 store0 _ _ { x1 := 0, y1 := 0, x2 := 10, y2 := 0 } [] rfl rfl rfl
     (by simp [measure0])⟩

/-- C1 fails as stated: with predicted endpoints `(5,5)`, `(7,7)` (in the target
hypothesis and in the measurement handed in) and the tracked line `(0,0)`–`(10,0)`,
`match` writes `(0,0,10,0)` whereas `projectExtremities` gives `(2,0,12/5,0)`; and no
predicted pair makes `projectExtremities` return the raw endpoints both for the tracked
line `(0,0)`–`(10,0)` and for the tracked line `(0,0)`–`(20,0)`, which `match` writes
unchanged from the same inputs. -/
theorem match_does_not_project_endpoints :
    Except.map (fun r => r.1.x)
        ((DsegMatcher.new (constTracker [{ x1 := 0, y1 := 0, x2 := 10, y2 := 0 }]) 1 1 1 1 1).match_
          img0 0 roi0 measure0 1 store0)
      = .ok [0, 0, 10, 0]
    ∧ projectExtremities [0, 0, 10, 0] [5, 5, 7, 7] measure0.x = .ok [2, 0, 12 / 5, 0]
    ∧ ([0, 0, 10, 0] : vec) ≠ [2, 0, 12 / 5, 0]
    ∧ Except.map (fun r => r.1.x)
        ((DsegMatcher.new (constTracker [{ x1 := 0, y1 := 0, x2 := 20, y2 := 0 }]) 1 1 1 1 1).match_
          img0 0 roi0 measure0 1 store0)
      = .ok [0, 0, 20, 0]
    ∧ ∀ p1x p1y p2x p2y n0 n1 n2 n3 : ℚ,
        ¬ (projectExtremities [0, 0, 10, 0] [p1x, p1y, p2x, p2y] [n0, n1, n2, n3]
              = .ok [0, 0, 10, 0]
            ∧ projectExtremities [0, 0, 20, 0] [p1x, p1y, p2x, p2y] [n0, n1, n2, n3]
              = .ok [0, 0, 20, 0]) := by
  have hd10 : (|(0 : ℚ) - 10| + |(0 : ℚ) - 0|) * (|(0 : ℚ) - 10| + |(0 : ℚ) - 0|) ≠ 0 := by
    norm_num
  have hd20 : (|(0 : ℚ) - 20| + |(0 : ℚ) - 0|) * (|(0 : ℚ) - 20| + |(0 : ℚ) - 0|) ≠ 0 := by
    norm_num
  refine ⟨?_, ?_, ?_, ?_, ?_⟩
  · rw [show measure0 = { x := 5 :: 5 :: 7 :: 7 :: [], std := 1, matchScore := 0 } from rfl]
    rw [match_of_tracked
      (DsegMatcher.new (constTracker [{ x1 := 0, y1 := 0, x2 := 10, y2 := 0 }]) 1 1 1 1 1)
      img0 0 1 roi0 5 5 7 7 1 0 [] store0 _ _
      { x1 := 0, y1 := 0, x2 := 10, y2 := 0 } [] rfl rfl rfl]
    rfl
  · rw [show measure0.x = 5 :: 5 :: 7 :: 7 :: [] from rfl]
    rw [projectExtremities_ok _ _ _ _ _ _ _ _ _ _ _ _ _ _ _ hd10]
    norm_num
  · intro h
    have h1 := (List.cons.inj h).1
    norm_num at h1
  · rw [show measure0 = { x := 5 :: 5 :: 7 :: 7 :: [], std := 1, matchScore := 0 } from rfl]
    rw [match_of_tracked
      (DsegMatcher.new (constTracker [{ x1 := 0, y1 := 0, x2 := 20, y2 := 0 }]) 1 1 1 1 1)
      img0 0 1 roi0 5 5 7 7 1 0 [] store0 _ _
      { x1 := 0, y1 := 0, x2 := 20, y2 := 0 } [] rfl rfl rfl]
    rfl
  · intro p1x p1y p2x p2y n0 n1 n2 n3 ⟨h10, h20⟩
    rw [projectExtremities_ok _ _ _ _ _ _ _ _ _ _ _ _ _ _ _ hd10] at h10
    rw [projectExtremities_ok _ _ _ _ _ _ _ _ _ _ _ _ _ _ _ hd20] at h20
    have e10 := (List.cons.inj (Except.ok.inj h10)).1
    have e20 := (List.cons.inj (Except.ok.inj h20)).1
    norm_num at e10 e20
    linarith

/-- C2: when the tracker's output set is empty, `match` returns with `matchScore = 0`
and with the endpoint components and `std` of the measurement as they were before the
call. -/
theorem match_empty_frame (self : DsegMatcher) (rawPtr : RawImage) (targetApp app : Ptr)
    (roi : ConvexRoi) (measure : Measurement) (store : AppStore) (a : AppearanceSegment)
    (hta : store targetApp = .segment a)
    (hout : (self.setout rawPtr a.hypothesis).count = 0) :
    ∃ r, self.match_ rawPtr targetApp roi measure app store = .ok r
      ∧ r.1.matchScore = 0 ∧ r.1.x = measure.x ∧ r.1.std = measure.std := by
  have hnil : (self.setout rawPtr a.hypothesis).segments = [] :=
    List.length_eq_zero.mp hout
  exact ⟨_, match_of_empty self rawPtr targetApp app roi measure store a hta hnil,
    rfl, rfl, rfl⟩

/-- Witness of C2: a tracker that yields nothing, on a measurement with
`matchScore = 7`. -/
theorem match_empty_frame_witness :
    store0 0 = .segment { hypothesis := { x1 := 5, y1 := 5, x2 := 7, y2 := 7 } }
    ∧ ((DsegMatcher.new (constTracker []) 1 1 1 1 1).setout img0
        { x1 := 5, y1 := 5, x2 := 7, y2 := 7 }).count = 0
    ∧ ∃ r, (DsegMatcher.new (constTracker []) 1 1 1 1 1).match_ img0 0 roi0
          { x := [5, 5, 7, 7], std := 3, matchScore := 7 } 1 store0 = .ok r
        ∧ r.1.matchScore = 0 ∧ r.1.x = [5, 5, 7, 7] ∧ r.1.std = 3 :=
  ⟨rfl, rfl,
   match_empty_frame (DsegMatcher.new (constTracker []) 1 1 1 1 1) img0 0 1 roi0
     { x := [5, 5, 7, 7], std := 3, matchScore := 7 } store0 _ rfl rfl⟩

/-- C3: when the tracker's output set holds `n ≥ 1` segments, `match` returns with
`std = measStd`, `matchScore = 1` and the output appearance's hypothesis set to the
segment at index 0; a call that differs only in the segments at indices `1..n-1` returns
the same measurement and the same appearances. -/
theorem match_takes_first (self other : DsegMatcher) (rawPtr : RawImage) (targetApp app : Ptr)
    (roi : ConvexRoi) (measure : Measurement) (store : AppStore)
    (a b : AppearanceSegment) (s : SegmentHypothesis) (rest rest2 : List SegmentHypothesis)
    (hta : store targetApp = .segment a) (happ : store app = .segment b)
    (hx : 4 ≤ measure.x.length)
    (hout : (self.setout rawPtr a.hypothesis).segments = s :: rest)
    (hstd : other.params.measStd = self.params.measStd)
    (hout2 : (other.setout rawPtr a.hypothesis).segments = s :: rest2) :
    (∃ r, self.match_ rawPtr targetApp roi measure app store = .ok r
      ∧ r.1.std = self.params.measStd ∧ r.1.matchScore = 1
      ∧ app_seg_ptr_t.hypothesis r.2 (some app) = .ok s)
    ∧ other.match_ rawPtr targetApp roi measure app store
      = self.match_ rawPtr targetApp roi measure app store := by
  obtain ⟨x, sd, sc⟩ := measure
  match x, hx with
  | x0 :: x1 :: x2 :: x3 :: xr, _ =>
    rw [match_of_tracked self rawPtr targetApp app roi x0 x1 x2 x3 sd sc xr store a b s rest
      hta happ hout]
    rw [match_of_tracked other rawPtr targetApp app roi x0 x1 x2 x3 sd sc xr store a b s rest2
      hta happ hout2]
    refine ⟨⟨_, rfl, rfl, rfl, ?_⟩, ?_⟩
    · exact hypothesis_some _ app { hypothesis := s } (Function.update_same _ _ _)
    · rw [hstd]

/-- Witness of C3: the tracker yields three segments, the comparison tracker only the
first of them. -/
theorem match_takes_first_witness :
    (∃ r,
      (DsegMatcher.new (constTracker [{ x1 := 0, y1 := 0, x2 := 10, y2 := 0 },
          { x1 := 1, y1 := 1, x2 := 2, y2 := 2 }, { x1 := 3, y1 := 3, x2 := 4, y2 := 4 }])
        1 1 1 1 2).match_ img0 0 roi0 measure0 1 store0 = .ok r
      ∧ r.1.std = 2 ∧ r.1.matchScore = 1
      ∧ app_seg_ptr_t.hypothesis r.2 (some 1) = .ok { x1 := 0, y1 := 0, x2 := 10, y2 := 0 })
    ∧ (DsegMatcher.new (constTracker [{ x1 := 0, y1 := 0, x2 := 10, y2 := 0 }])
        1 1 1 1 2).match_ img0 0 roi0 measure0 1 store0
      = (DsegMatcher.new (constTracker [{ x1 := 0, y1 := 0, x2 := 10, y2 := 0 },
          { x1 := 1, y1 := 1, x2 := 2, y2 := 2 }, { x1 := 3, y1 := 3, x2 := 4, y2 := 4 }])
        1 1 1 1 2).match_ img0 0 roi0 measure0 1 store0 :=
  match_takes_first
    (DsegMatcher.new (constTracker [{ x1 := 0, y1 := 0, x2 := 10, y2 := 0 },
      { x1 := 1, y1 := 1, x2 := 2, y2 := 2 }, { x1 := 3, y1 := 3, x2 := 4, y2 := 4 }]) 1 1 1 1 2)
    (DsegMatcher.new (constTracker [{ x1 := 0, y1 := 0, x2 := 10, y2 := 0 }]) 1 1 1 1 2)
    img0 0 1 roi0 measure0 store0 { hypothesis := { x1 := 5, y1 := 5, x2 := 7, y2 := 7 } }
    { hypothesis := { x1 := 5, y1 := 5, x2 := 7, y2 := 7 } }
    { x1 := 0, y1 := 0, x2 := 10, y2 := 0 }
    [{ x1 := 1, y1 := 1, x2 := 2, y2 := 2 }, { x1 := 3, y1 := 3, x2 := 4, y2 := 4 }] []
    rfl rfl (by simp [measure0]) rfl rfl rfl

/-- C8: for a matcher with `measStd > 0` and an input measurement with `std > 0` (and any
`matchScore`), whatever the tracker yields, a measurement returned by `match` has
`std > 0` and `matchScore` exactly 0 or exactly 1; and `match` does return one whenever
both handles carry a segment appearance and the measurement has its four components. -/
theorem match_preserves_invariant (self : DsegMatcher) (rawPtr : RawImage)
    (targetApp app : Ptr) (roi : ConvexRoi) (measure : Measurement) (store : AppStore)
    (hstd : 0 < self.params.measStd) (hin : 0 < measure.std) :
    (∀ r, self.match_ rawPtr targetApp roi measure app store = .ok r →
      0 < r.1.std ∧ (r.1.matchScore = 0 ∨ r.1.matchScore = 1))
    ∧ (∀ a b, store targetApp = .segment a → store app = .segment b →
        4 ≤ measure.x.length →
        ∃ r, self.match_ rawPtr targetApp roi measure app store = .ok r) := by
  constructor
  · intro r hr
    cases hta : store targetApp with
    | imagePoint c =>
      rw [match_of_bad_target self rawPtr targetApp app roi measure store c hta] at hr
      cases hr
    | segment a =>
      cases hout : (self.setout rawPtr a.hypothesis).segments with
      | nil =>
        rw [match_of_empty self rawPtr targetApp app roi measure store a hta hout] at hr
        cases hr
        exact ⟨hin, Or.inl rfl⟩
      | cons s rest =>
        by_cases hx : measure.x.length < 4
        · rw [match_of_tracked_short self rawPtr targetApp app roi measure store a s rest hta
            hout hx] at hr
          cases hr
        · obtain ⟨x, sd, sc⟩ := measure
          match x, hx with
          | [], h => simp at h
          | [_], h => simp at h
          | [_, _], h => simp at h
          | [_, _, _], h => simp at h
          | x0 :: x1 :: x2 :: x3 :: xr, _ =>
            cases happ : store app with
            | imagePoint c =>
              rw [match_of_tracked_bad_app self rawPtr targetApp app roi x0 x1 x2 x3 sd sc xr
                store a c s rest hta happ hout] at hr
              cases hr
            | segment b =>
              rw [match_of_tracked self rawPtr targetApp app roi x0 x1 x2 x3 sd sc xr store a b
                s rest hta happ hout] at hr
              cases hr
              exact ⟨hstd, Or.inr rfl⟩
  · intro a b hta happ hx
    cases hout : (self.setout rawPtr a.hypothesis).segments with
    | nil => exact ⟨_, match_of_empty self rawPtr targetApp app roi measure store a hta hout⟩
    | cons s rest =>
      obtain ⟨x, sd, sc⟩ := measure
      match x, hx with
      | x0 :: x1 :: x2 :: x3 :: xr, _ =>
        exact ⟨_, match_of_tracked self rawPtr targetApp app roi x0 x1 x2 x3 sd sc xr store a b
          s rest hta happ hout⟩

/-- Witness of C8: `measStd = 2`, an input measurement with `std = 3` and
`matchScore = 7`, and a tracker that yields one segment. -/
theorem match_preserves_invariant_witness :
    (0 : ℚ) < (DsegMatcher.new (constTracker [{ x1 := 0, y1 := 0, x2 := 10, y2 := 0 }])
        1 1 1 1 2).params.measStd
    ∧ (0 : ℚ) < 3
    ∧ ∃ r, (DsegMatcher.new (constTracker [{ x1 := 0, y1 := 0, x2 := 10, y2 := 0 }])
          1 1 1 1 2).match_ img0 0 roi0 { x := [5, 5, 7, 7], std := 3, matchScore := 7 } 1
          store0 = .ok r
        ∧ 0 < r.1.std ∧ (r.1.matchScore = 0 ∨ r.1.matchScore = 1) := by
  have h2 : (0 : ℚ) < (DsegMatcher.new
      (constTracker [{ x1 := 0, y1 := 0, x2 := 10, y2 := 0 }]) 1 1 1 1 2).params.measStd := by
    show (0 : ℚ) < 2
    norm_num
  have h3 : (0 : ℚ) < 3 := by norm_num
  have key := match_preserves_invariant
    (DsegMatcher.new (constTracker [{ x1 := 0, y1 := 0, x2 := 10, y2 := 0 }]) 1 1 1 1 2)
    img0 0 1 roi0 { x := [5, 5, 7, 7], std := 3, matchScore := 7 } store0 h2 h3
  obtain ⟨r, hr⟩ := key.2 _ _ rfl rfl (by simp)
  exact ⟨h2, h3, r, hr, key.1 r hr⟩

/-! ## Detection and observation filling -/

/-- C5, as the code has it: `detect` sets `measurement.std` to the configured `measStd`
before it hands the feature to the hierarchical detector, so whenever `detect` returns
true and the hierarchical detector, in this call, did not write `measurement.std` of the
feature it was handed, the returned feature's `measurement.std` is exactly the `measStd`
passed to the constructor. -/
theorem detect_std_of_keepsStd (hdetector : HierarchicalDirectSegmentDetector)
    (hierarchyLevel : Int) (measStd : ℚ) (descFactory : DescriptorFactoryAbstract)
    (rawData : RawImage) (roi : ConvexRoi) (fresh : FeatureSegment) (store : AppStore)
    (hkeep : hdetector.keepsStdAt rawData.img
      { fresh with measurement := fresh.measurement.setStd measStd } roi store)
    (_hret : ((HDsegDetector.new hdetector hierarchyLevel measStd descFactory).detect
      rawData roi fresh store).1 = true) :
    ((HDsegDetector.new hdetector hierarchyLevel measStd descFactory).detect
      rawData roi fresh store).2.1.measurement.std = measStd :=
  hkeep

/-- Witness of the amended C5: a detector that resets `measurement.std` on images of
width 7 and leaves it alone in the call at hand, on an image of width 0. -/
theorem detect_std_of_keepsStd_witness :
    ¬ widthSevenDetector.keepsStdAt { width := 7, height := 0, data := [] }
        { fresh0 with measurement := fresh0.measurement.setStd 2 } roi0 store0
    ∧ widthSevenDetector.keepsStdAt img0.img
        { fresh0 with measurement := fresh0.measurement.setStd 2 } roi0 store0
    ∧ ((HDsegDetector.new widthSevenDetector 3 2 countingFactory).detect
        img0 roi0 fresh0 store0).1 = true
    ∧ ((HDsegDetector.new widthSevenDetector 3 2 countingFactory).detect
        img0 roi0 fresh0 store0).2.1.measurement.std = 2 := by
  refine ⟨?_, rfl, rfl,
    detect_std_of_keepsStd widthSevenDetector 3 2 countingFactory img0 roi0 fresh0 store0
      rfl rfl⟩
  show ¬ ((0 : ℚ) = 2)
  norm_num

/-- C5 fails as stated: with a hierarchical detector that resets `measurement.std` of
the feature it is handed, `detect` configured with `measStd = 2` returns true and a
feature whose `measurement.std` is `0`. -/
theorem detect_std_overwritten :
    (HDsegDetector.new resettingDetector 3 2 countingFactory).params.measStd = 2
    ∧ ((HDsegDetector.new resettingDetector 3 2 countingFactory).detect
        img0 roi0 fresh0 store0).1 = true
    ∧ ((HDsegDetector.new resettingDetector 3 2 countingFactory).detect
        img0 roi0 fresh0 store0).2.1.measurement.std = 0
    ∧ ((HDsegDetector.new resettingDetector 3 2 countingFactory).detect
        img0 roi0 fresh0 store0).2.1.measurement.std
      ≠ (HDsegDetector.new resettingDetector 3 2 countingFactory).params.measStd := by
  refine ⟨rfl, rfl, rfl, ?_⟩
  show (0 : ℚ) ≠ 2
  norm_num

/-- C6: when the feature and the observation both carry a segment appearance,
`fillDataObs` returns; afterwards the observation's observed appearance holds the
hypothesis that the feature's appearance held at the call, the landmark of the
observation holds the descriptor returned by one `createDescriptor()` request to the
held factory, and the feature's appearance is as it was. -/
theorem fillDataObs_effect (self : HDsegDetector) (featPtr : FeatureSegment)
    (obsPtr : ObservationAbstract) (w : World) (a b : AppearanceSegment)
    (hsrc : w.appearances featPtr.appearancePtr = .segment a)
    (hdst : w.appearances obsPtr.observedAppearance = .segment b) :
    ∃ w2, self.fillDataObs featPtr obsPtr w = .ok w2
      ∧ app_seg_ptr_t.hypothesis w2.appearances (some obsPtr.observedAppearance)
          = .ok a.hypothesis
      ∧ (w2.landmarks obsPtr.landmarkPtr).descriptor
          = some (self.descFactory.createDescriptor w.factory).1
      ∧ w2.factory = (self.descFactory.createDescriptor w.factory).2
      ∧ w2.appearances featPtr.appearancePtr = w.appearances featPtr.appearancePtr := by
  have hrun : self.fillDataObs featPtr obsPtr w
      = .ok { appearances := Function.update w.appearances obsPtr.observedAppearance
                (.segment { hypothesis := a.hypothesis })
              landmarks := Function.update w.landmarks obsPtr.landmarkPtr
                ((w.landmarks obsPtr.landmarkPtr).setDescriptor
                  (self.descFactory.createDescriptor w.factory).1)
              factory := (self.descFactory.createDescriptor w.factory).2 } := by
    unfold HDsegDetector.fillDataObs
    simp only [cast_segment _ _ a hsrc, cast_segment _ _ b hdst, hypothesis_some _ _ a hsrc,
      setHypothesis_some _ _ b _ hdst, ok_bind, pure_eq_ok]
  refine ⟨_, hrun, ?_, ?_, ?_, ?_⟩
  · exact hypothesis_some _ _ { hypothesis := a.hypothesis } (Function.update_same _ _ _)
  · show (Function.update w.landmarks obsPtr.landmarkPtr _ obsPtr.landmarkPtr).descriptor = _
    rw [Function.update_same]
    rfl
  · rfl
  · show Function.update w.appearances obsPtr.observedAppearance _ featPtr.appearancePtr = _
    by_cases hal : featPtr.appearancePtr = obsPtr.observedAppearance
    · rw [hal, Function.update_same, ← hal, hsrc]
    · rw [Function.update_noteq hal]

/-- Witness of C6: the feature's appearance (handle 0) holds `(5,5)`–`(7,7)` and the
observation's observed appearance (handle 1) holds `(1,2)`–`(3,4)` before the call. -/
theorem fillDataObs_effect_witness :
    world2.appearances fresh0.appearancePtr
      = .segment { hypothesis := { x1 := 5, y1 := 5, x2 := 7, y2 := 7 } }
    ∧ world2.appearances 1
      = .segment { hypothesis := { x1 := 1, y1 := 2, x2 := 3, y2 := 4 } }
    ∧ app_seg_ptr_t.hypothesis world2.appearances (some 1)
      = .ok { x1 := 1, y1 := 2, x2 := 3, y2 := 4 }
    ∧ ∃ w2, (HDsegDetector.new endpointDetector 3 2 countingFactory).fillDataObs fresh0
          { observedAppearance := 1, landmarkPtr := 4 } world2 = .ok w2
        ∧ app_seg_ptr_t.hypothesis w2.appearances (some 1)
            = .ok { x1 := 5, y1 := 5, x2 := 7, y2 := 7 }
        ∧ (w2.landmarks 4).descriptor = some 100
        ∧ w2.factory = 1
        ∧ w2.appearances 0 = world2.appearances 0 :=
  ⟨rfl, rfl, rfl,
   fillDataObs_effect (HDsegDetector.new endpointDetector 3 2 countingFactory) fresh0
     { observedAppearance := 1, landmarkPtr := 4 } world2
     { hypothesis := { x1 := 5, y1 := 5, x2 := 7, y2 := 7 } }
     { hypothesis := { x1 := 1, y1 := 2, x2 := 3, y2 := 4 } } rfl rfl⟩

/-- C7, as the code has it: both constructors accept every `measStd`, a non-positive one
included, and store it unchanged; `HDsegDetector` also stores `measVar = measStd²`. No
validation takes place. -/
theorem constructors_store_measStd (tracker : DirectSegmentsTracker)
    (hdetector : HierarchicalDirectSegmentDetector) (descFactory : DescriptorFactoryAbstract)
    (lowInnov threshold mahalanobisTh relevanceTh measStd : ℚ) (hierarchyLevel : Int) :
    (DsegMatcher.new tracker lowInnov threshold mahalanobisTh relevanceTh measStd).params.measStd
      = measStd
    ∧ (HDsegDetector.new hdetector hierarchyLevel measStd descFactory).params.measStd = measStd
    ∧ (HDsegDetector.new hdetector hierarchyLevel measStd descFactory).params.measVar
      = measStd * measStd :=
  ⟨rfl, rfl, rfl⟩

/-- C7 fails as stated: a `DsegMatcher` built with `measStd = -1` exists and its `match`
emits a measurement with `std = -1` once the tracker yields a segment; an `HDsegDetector`
built with `measStd = -1` exists and its `detect` returns true with a feature whose
`measurement.std` is `-1`. -/
theorem constructors_accept_nonpositive_measStd :
    Except.map (fun r => (r.1.std, r.1.matchScore))
        ((DsegMatcher.new (constTracker [{ x1 := 0, y1 := 0, x2 := 10, y2 := 0 }])
          1 1 1 1 (-1)).match_ img0 0 roi0 measure0 1 store0)
      = .ok (-1, 1)
    ∧ ((HDsegDetector.new endpointDetector 3 (-1) countingFactory).detect
        img0 roi0 fresh0 store0).1 = true
    ∧ ((HDsegDetector.new endpointDetector 3 (-1) countingFactory).detect
        img0 roi0 fresh0 store0).2.1.measurement.std = -1
    ∧ (-1 : ℚ) ≤ 0 := by
  refine ⟨?_, rfl, rfl, by norm_num⟩
  rw [show measure0 = { x := 5 :: 5 :: 7 :: 7 :: [], std := 1, matchScore := 0 } from rfl]
  rw [match_of_tracked
    (DsegMatcher.new (constTracker [{ x1 := 0, y1 := 0, x2 := 10, y2 := 0 }]) 1 1 1 1 (-1))
    img0 0 1 roi0 5 5 7 7 1 0 [] store0 _ _
    { x1 := 0, y1 := 0, x2 := 10, y2 := 0 } [] rfl rfl rfl]
  rfl

end rtslam
end jafar
